import Mathlib

/-!
Verification of the mini-rv32ima-ts emulator core (a TypeScript RISC-V
emulator compiled with roblox-ts, i.e. running on Luau `bit32` / `buffer`
semantics).

The embedding below models:
* Luau `bit32` operations (32-bit wrapping; logical shifts with a
  displacement of 32 or more yield 0, arithmetic right shift replicates the
  sign bit) and little-endian `buffer` reads/writes;
* the CSR file of `Cpu` (`src/unnamed/part_002`): note that `load_csr` and
  `store_csr` index the 4*4096-byte backing buffer with the raw CSR address
  as a BYTE offset (no *4 scaling), so the four bytes of adjacent CSR
  addresses overlap;
* the memory bus (`src/src/shared/emulator/bus.ts`) together with the DRAM,
  CLINT, PLIC, UART and virtio-block devices it routes to, including the
  fall-through `switch` statements of `Dram.store` and `Virtio.store32`;
* the trap unit, interrupt-pending evaluation, address translation and the
  step loop of `Cpu`.

Thrown values are modelled with `Except`: architectural traps
(`Exception` subclasses of trap.ts) as `Err.trap`, and raw Luau runtime
errors (string throws, buffer out-of-bounds accesses) as `Err.host`.
-/

namespace RV32

/-! ## Luau bit32 arithmetic -/

/-- 2^32, the wrap-around modulus of all Luau bit32 operations. -/
def W32 : Nat := 4294967296

/-- Conversion of a Luau number to an unsigned 32-bit integer (mod 2^32). -/
def u32 (x : Nat) : Nat := x % W32

/-- Luau bit32.band (the `&` operator in the roblox-ts source). -/
def band (x y : Nat) : Nat := u32 x &&& u32 y

/-- Luau bit32.bor (the `|` operator in the roblox-ts source). -/
def bor (x y : Nat) : Nat := u32 x ||| u32 y

/-- Luau bit32.bnot as called explicitly in the source. -/
def bnot (x : Nat) : Nat := W32 - 1 - u32 x

/-- Luau bit32.lshift (`<<`): displacements of 32 or more yield 0. -/
def lshift (x n : Nat) : Nat := if n ≤ 31 then u32 (u32 x * 2 ^ n) else 0

/-- Sign-interpretation of a 32-bit value, used by arithmetic right shift. -/
def toSigned (x : Nat) : Int := if u32 x < 2147483648 then (u32 x : Int) else (u32 x : Int) - (W32 : Int)

/-- Luau bit32.arshift (the `>>` operator in roblox-ts): an arithmetic right
shift, i.e. floor division of the sign-interpreted value, reduced mod 2^32.
For displacements of 32 or more this correctly produces 0 or 0xFFFFFFFF. -/
def arshift (x n : Nat) : Nat := (Int.fdiv (toSigned x) ((2 : Int) ^ n) % (W32 : Int)).toNat

/-! ## Luau little-endian byte buffers

A buffer is modelled as its byte contents, a function from byte index to
byte value. Bounds checks are enforced where a claim depends on them (the
DRAM accessors); the CSR and register buffers are only ever accessed at
offsets provably inside their 16384- resp. 128-byte allocations, so they
are modelled as total functions. -/

/-- Byte contents of a Luau buffer. -/
abbrev Bytes := Nat → Nat

/-- The all-zero buffer contents (Luau buffers are zero-initialised). -/
def zeroBytes : Bytes := fun _ => 0

/-- buffer.readu8. -/
def readu8 (b : Bytes) (i : Nat) : Nat := b i % 256

/-- buffer.writeu8 (stores the value modulo 256). -/
def writeu8 (b : Bytes) (i v : Nat) : Bytes := fun j => if j = i then v % 256 else b j

/-- buffer.readu16, little-endian. -/
def readu16 (b : Bytes) (i : Nat) : Nat := readu8 b i + 256 * readu8 b (i + 1)

/-- buffer.readu32, little-endian. -/
def readu32 (b : Bytes) (i : Nat) : Nat :=
  readu8 b i + 256 * readu8 b (i + 1) + 65536 * readu8 b (i + 2) + 16777216 * readu8 b (i + 3)

/-- buffer.writeu16, little-endian. -/
def writeu16 (b : Bytes) (i v : Nat) : Bytes := writeu8 (writeu8 b i v) (i + 1) (v / 256)

/-- buffer.writeu32, little-endian. -/
def writeu32 (b : Bytes) (i v : Nat) : Bytes :=
  writeu8 (writeu8 (writeu8 (writeu8 b i v) (i + 1) (v / 256)) (i + 2) (v / 65536)) (i + 3) (v / 16777216)

/-! ## Basic lemmas about the buffer model -/

theorem readu8_writeu8_same (b : Bytes) (i v : Nat) : readu8 (writeu8 b i v) i = v % 256 := by
  simp [readu8, writeu8, Nat.mod_mod_of_dvd]

theorem readu8_writeu8_ne (b : Bytes) (i j v : Nat) (h : j ≠ i) :
    readu8 (writeu8 b i v) j = readu8 b j := by
  simp [readu8, writeu8, h]

theorem readu32_writeu32 (b : Bytes) (i v : Nat) : readu32 (writeu32 b i v) i = v % W32 := by
  unfold readu32 writeu32
  rw [readu8_writeu8_ne _ _ _ _ (by omega), readu8_writeu8_ne _ _ _ _ (by omega),
    readu8_writeu8_ne _ _ _ _ (by omega), readu8_writeu8_same,
    readu8_writeu8_ne _ _ _ _ (by omega), readu8_writeu8_ne _ _ _ _ (by omega),
    readu8_writeu8_same, readu8_writeu8_ne _ _ _ _ (by omega), readu8_writeu8_same,
    readu8_writeu8_same]
  unfold W32
  omega

theorem u32_lt (x : Nat) : u32 x < W32 := Nat.mod_lt _ (by norm_num [W32])

theorem bor_lt (x y : Nat) : bor x y < W32 := by
  have h : (4294967296 : Nat) = 2 ^ 32 := by norm_num
  have := Nat.bitwise_lt (f := or) (x := u32 x) (y := u32 y) (n := 32)
    (by rw [← h]; exact u32_lt x) (by rw [← h]; exact u32_lt y)
  simpa [bor, W32, h, Nat.lor] using this

theorem band_lt (x y : Nat) : band x y < W32 := by
  have h : (4294967296 : Nat) = 2 ^ 32 := by norm_num
  have := Nat.bitwise_lt (f := and) (x := u32 x) (y := u32 y) (n := 32)
    (by rw [← h]; exact u32_lt x) (by rw [← h]; exact u32_lt y)
  simpa [band, W32, h, Nat.land] using this

/-! ## Traps and runtime errors (trap.ts)

The source raises traps by throwing instances of the `Exception` subclasses
in trap.ts; device stubs throw plain strings, and Luau buffer accesses out
of bounds abort with a runtime error. `Err.trap` models the former,
`Err.host` the two latter kinds of thrown value. -/

/-- The `ExceptionCodes` enum of trap.ts, as the concrete subclasses of
`Exception` that the emulator instantiates. -/
inductive Exc where
  | InstructionAddressMisaligned
  | InstructionAccessFault
  | IllegalInstruction
  | Breakpoint
  | LoadAddressMisaligned
  | LoadAccessFault
  | StoreAMOAddressMisaligned
  | StoreAMOAccessFault
  | EnvironmentCallFromUMode
  | EnvironmentCallFromSMode
  | EnvironmentCallFromMMode
  | InstructionPageFault
  | LoadPageFault
  | StoreAMOPageFault
  deriving DecidableEq

/-- The numeric `exceptionCode` of each `Exception` subclass. -/
def Exc.exceptionCode : Exc → Nat
  | .InstructionAddressMisaligned => 0
  | .InstructionAccessFault => 1
  | .IllegalInstruction => 2
  | .Breakpoint => 3
  | .LoadAddressMisaligned => 4
  | .LoadAccessFault => 5
  | .StoreAMOAddressMisaligned => 6
  | .StoreAMOAccessFault => 7
  | .EnvironmentCallFromUMode => 8
  | .EnvironmentCallFromSMode => 9
  | .EnvironmentCallFromMMode => 11
  | .InstructionPageFault => 12
  | .LoadPageFault => 13
  | .StoreAMOPageFault => 15

/-- `Exception.isFatal` of trap.ts. -/
def Exc.isFatal : Exc → Bool
  | .InstructionAddressMisaligned => true
  | .InstructionAccessFault => true
  | .LoadAccessFault => true
  | .StoreAMOAddressMisaligned => true
  | .StoreAMOAccessFault => true
  | _ => false

/-- The `InterruptCodes` enum of trap.ts, as the subclasses of `Interrupt`. -/
inductive Intr where
  | UserSoftwareInterrupt
  | SupervisorSoftwareInterrupt
  | MachineSoftwareInterrupt
  | UserTimerInterrupt
  | SupervisorTimerInterrupt
  | MachineTimerInterrupt
  | UserExternalInterrupt
  | SupervisorExternalInterrupt
  | MachineExternalInterrupt
  deriving DecidableEq

/-- The numeric `exceptionCode` of each `Interrupt` subclass. -/
def Intr.exceptionCode : Intr → Nat
  | .UserSoftwareInterrupt => 0
  | .SupervisorSoftwareInterrupt => 1
  | .MachineSoftwareInterrupt => 3
  | .UserTimerInterrupt => 4
  | .SupervisorTimerInterrupt => 5
  | .MachineTimerInterrupt => 7
  | .UserExternalInterrupt => 8
  | .SupervisorExternalInterrupt => 9
  | .MachineExternalInterrupt => 11

/-- A thrown value: an architectural trap object, or a raw host
(Luau runtime) error such as a thrown string or a buffer bounds abort. -/
inductive Err where
  | trap (e : Exc)
  | host (msg : String)
  deriving DecidableEq

/-- Message of a Luau buffer access out of bounds. -/
def bufferOOB : String := "buffer access out of bounds"

/-- The string thrown by the 64-bit DRAM accessor stubs. -/
def dram64Msg : String := "32 bit emulator vs 64 bits..."

/-! ## Memory map constants (bus.ts) -/

def CLINT_BASE : Nat := 0x2000000
def CLINT_SIZE : Nat := 0x10000
def PLIC_BASE : Nat := 0xc000000
def PLIC_SIZE : Nat := 0x4000000
def UART_BASE : Nat := 0x10000000
def UART_SIZE : Nat := 0x100
def VIRTIO_BASE : Nat := 0x10001000
def VIRTIO_SIZE : Nat := 0x1000
def DRAM_BASE : Nat := 0x80000000
def DRAM_SIZE : Nat := 1024 * 1024 * 128

/-! ## DRAM (dram.ts, concatenated inside bus.ts)

The byte index is `address - DRAM_BASE`; the source performs no bounds
check of its own, so an access outside the backing buffer aborts with a
Luau buffer error (`Err.host bufferOOB`), exactly as `buffer.readu8` &c.
do on an out-of-range or negative index. -/

structure Dram where
  dram : Bytes

/-- Dram constructor: the kernel binary is copied to the start of DRAM. -/
def Dram.new (binary : Bytes) : Dram := { dram := binary }

def Dram.load8 (d : Dram) (address : Nat) : Except Err Nat :=
  if DRAM_BASE ≤ address ∧ address - DRAM_BASE + 1 ≤ DRAM_SIZE then
    .ok (readu8 d.dram (address - DRAM_BASE))
  else .error (.host bufferOOB)

def Dram.load16 (d : Dram) (address : Nat) : Except Err Nat :=
  if DRAM_BASE ≤ address ∧ address - DRAM_BASE + 2 ≤ DRAM_SIZE then
    .ok (readu16 d.dram (address - DRAM_BASE))
  else .error (.host bufferOOB)

def Dram.load32 (d : Dram) (address : Nat) : Except Err Nat :=
  if DRAM_BASE ≤ address ∧ address - DRAM_BASE + 4 ≤ DRAM_SIZE then
    .ok (readu32 d.dram (address - DRAM_BASE))
  else .error (.host bufferOOB)

/-- The 64-bit load stub: unconditionally throws a string. -/
def Dram.load64 (_ : Dram) (_ : Nat) : Except Err Nat := .error (.host dram64Msg)

def Dram.store8 (d : Dram) (address value : Nat) : Except Err Dram :=
  if DRAM_BASE ≤ address ∧ address - DRAM_BASE + 1 ≤ DRAM_SIZE then
    .ok { d with dram := writeu8 d.dram (address - DRAM_BASE) value }
  else .error (.host bufferOOB)

def Dram.store16 (d : Dram) (address value : Nat) : Except Err Dram :=
  if DRAM_BASE ≤ address ∧ address - DRAM_BASE + 2 ≤ DRAM_SIZE then
    .ok { d with dram := writeu16 d.dram (address - DRAM_BASE) value }
  else .error (.host bufferOOB)

def Dram.store32 (d : Dram) (address value : Nat) : Except Err Dram :=
  if DRAM_BASE ≤ address ∧ address - DRAM_BASE + 4 ≤ DRAM_SIZE then
    .ok { d with dram := writeu32 d.dram (address - DRAM_BASE) value }
  else .error (.host bufferOOB)

/-- The 64-bit store stub: unconditionally throws a string. -/
def Dram.store64 (_ : Dram) (_ _ : Nat) : Except Err Dram := .error (.host dram64Msg)

/-- `Dram.load`: every case of the switch ends in `return`, so there is no
fall-through on the load side. -/
def Dram.load (d : Dram) (address size : Nat) : Except Err Nat :=
  match size with
  | 8 => d.load8 address
  | 16 => d.load16 address
  | 32 => d.load32 address
  | 64 => d.load64 address
  | _ => .error (.trap .LoadAccessFault)

/-- `Dram.store`: the switch has NO `break` statements, so a matching case
falls through every later case: a size-8 store also runs the 16-, 32- and
64-bit stores, and every size reaches `store64`, which throws, or the
`default` case, which throws `StoreAMOAccessFault`. -/
def Dram.store (d : Dram) (address size value : Nat) : Except Err Dram := do
  let m8 := size == 8
  let m16 := m8 || size == 16
  let m32 := m16 || size == 32
  let m64 := m32 || size == 64
  let d ← if m8 then d.store8 address value else pure d
  let d ← if m16 then d.store16 address value else pure d
  let d ← if m32 then d.store32 address value else pure d
  let _ ← if m64 then d.store64 address value else pure d
  .error (.trap .StoreAMOAccessFault)

/-! ## CLINT (clint.ts) -/

def CLINT_MTIMECMP : Nat := CLINT_BASE + 0x4000
def CLINT_MTIME : Nat := CLINT_BASE + 0xbff8

structure Clint where
  mtime : Nat
  mtimecmp : Nat

def Clint.new : Clint := { mtime := 0, mtimecmp := 0 }

def Clint.load64 (c : Clint) (address : Nat) : Nat :=
  if address = CLINT_MTIMECMP then c.mtimecmp
  else if address = CLINT_MTIME then c.mtime
  else 0

def Clint.store64 (c : Clint) (address value : Nat) : Clint :=
  if address = CLINT_MTIMECMP then { c with mtimecmp := value }
  else if address = CLINT_MTIME then { c with mtime := value }
  else c

def Clint.load (c : Clint) (address size : Nat) : Except Err Nat :=
  match size with
  | 64 => .ok (c.load64 address)
  | _ => .error (.trap .LoadAccessFault)

def Clint.store (c : Clint) (address size value : Nat) : Except Err Clint :=
  match size with
  | 64 => .ok (c.store64 address value)
  | _ => .error (.trap .StoreAMOAccessFault)

/-! ## PLIC (src/unnamed/part_003) -/

def PLIC_PENDING : Nat := PLIC_BASE + 0x1000
def PLIC_SENABLE : Nat := PLIC_BASE + 0x2080
def PLIC_SPRIORITY : Nat := PLIC_BASE + 0x201000
def PLIC_SCLAIM : Nat := PLIC_BASE + 0x201004

structure Plic where
  pending : Nat
  senable : Nat
  spriority : Nat
  sclaim : Nat

def Plic.new : Plic := { pending := 0, senable := 0, spriority := 0, sclaim := 0 }

def Plic.load32 (p : Plic) (address : Nat) : Nat :=
  if address = PLIC_PENDING then p.pending
  else if address = PLIC_SENABLE then p.senable
  else if address = PLIC_SPRIORITY then p.spriority
  else if address = PLIC_SCLAIM then p.sclaim
  else 0

def Plic.store32 (p : Plic) (address value : Nat) : Plic :=
  if address = PLIC_PENDING then { p with pending := value }
  else if address = PLIC_SENABLE then { p with senable := value }
  else if address = PLIC_SPRIORITY then { p with spriority := value }
  else if address = PLIC_SCLAIM then { p with sclaim := value }
  else p

def Plic.load (p : Plic) (address size : Nat) : Except Err Nat :=
  if size = 32 then .ok (p.load32 address) else .error (.trap .LoadAccessFault)

def Plic.store (p : Plic) (address size value : Nat) : Except Err Plic :=
  if size = 32 then .ok (p.store32 address value) else .error (.trap .StoreAMOAccessFault)

/-! ## UART (uart.ts) -/

def UART_IRQ : Nat := 10

structure Uart where
  interrupting : Bool

def Uart.new : Uart := { interrupting := false }

/-- UART load/store are stubs that unconditionally raise access faults. -/
def Uart.load (_ : Uart) (_ _ : Nat) : Except Err Nat := .error (.trap .LoadAccessFault)

def Uart.store (_ : Uart) (_ _ _ : Nat) : Except Err Uart := .error (.trap .StoreAMOAccessFault)

/-- `Uart.isInterrupting` returns the old flag and TOGGLES it (spec section 9
documents this as single-shot read-and-clear intent). -/
def Uart.isInterrupting (u : Uart) : Bool × Uart :=
  (u.interrupting, { u with interrupting := !u.interrupting })

/-! ## Virtio block device (virtio.ts, concatenated inside bus.ts) -/

def VIRTIO_IRQ : Nat := 1
def VRING_DESC_SIZE : Nat := 16
def DESC_NUM : Nat := 8
def VIRTIO_MAGIC : Nat := VIRTIO_BASE + 0x000
def VIRTIO_VERSION : Nat := VIRTIO_BASE + 0x004
def VIRTIO_DEVICE_ID : Nat := VIRTIO_BASE + 0x008
def VIRTIO_VENDOR_ID : Nat := VIRTIO_BASE + 0x00c
def VIRTIO_DEVICE_FEATURES : Nat := VIRTIO_BASE + 0x010
def VIRTIO_DRIVER_FEATURES : Nat := VIRTIO_BASE + 0x020
def VIRTIO_GUEST_PAGE_SIZE : Nat := VIRTIO_BASE + 0x028
def VIRTIO_QUEUE_SEL : Nat := VIRTIO_BASE + 0x030
def VIRTIO_QUEUE_NUM_MAX : Nat := VIRTIO_BASE + 0x034
def VIRTIO_QUEUE_NUM : Nat := VIRTIO_BASE + 0x038
def VIRTIO_QUEUE_PFN : Nat := VIRTIO_BASE + 0x040
def VIRTIO_QUEUE_NOTIFY : Nat := VIRTIO_BASE + 0x050
def VIRTIO_STATUS : Nat := VIRTIO_BASE + 0x070

structure Virtio where
  id : Nat
  driver_features : Nat
  page_size : Nat
  queue_sel : Nat
  queue_num : Nat
  queue_pfn : Nat
  queue_notify : Nat
  status : Nat
  disk : Bytes

/-- Virtio constructor; `queue_notify` starts at the sentinel 9999. -/
def Virtio.new (diskImage : Bytes) : Virtio :=
  { id := 0, driver_features := 0, page_size := 0, queue_sel := 0, queue_num := 0,
    queue_pfn := 0, queue_notify := 9999, status := 0, disk := diskImage }

/-- `Virtio.isInterrupting`: single-shot consumption of a queue notify. -/
def Virtio.isInterrupting (v : Virtio) : Bool × Virtio :=
  if v.queue_notify ≠ 9999 then (true, { v with queue_notify := 9999 }) else (false, v)

def Virtio.load32 (v : Virtio) (address : Nat) : Nat :=
  if address = VIRTIO_MAGIC then 0x74726976
  else if address = VIRTIO_VERSION then 0x1
  else if address = VIRTIO_DEVICE_ID then 0x2
  else if address = VIRTIO_VENDOR_ID then 0x554d4551
  else if address = VIRTIO_DEVICE_FEATURES then 0
  else if address = VIRTIO_DRIVER_FEATURES then v.driver_features
  else if address = VIRTIO_QUEUE_NUM_MAX then 8
  else if address = VIRTIO_QUEUE_PFN then v.queue_pfn
  else if address = VIRTIO_STATUS then v.status
  else 0

/-- `Virtio.store32`: the switch has NO `break` statements before `default`,
so a matching case falls through and also performs every later assignment
(e.g. a store to QUEUE_NOTIFY also overwrites `status`). -/
def Virtio.store32 (v : Virtio) (address value : Nat) : Virtio :=
  let m1 := address == VIRTIO_DEVICE_FEATURES
  let m2 := m1 || address == VIRTIO_GUEST_PAGE_SIZE
  let m3 := m2 || address == VIRTIO_QUEUE_SEL
  let m4 := m3 || address == VIRTIO_QUEUE_NUM
  let m5 := m4 || address == VIRTIO_QUEUE_PFN
  let m6 := m5 || address == VIRTIO_QUEUE_NOTIFY
  let m7 := m6 || address == VIRTIO_STATUS
  let v := if m1 then { v with driver_features := value } else v
  let v := if m2 then { v with page_size := value } else v
  let v := if m3 then { v with queue_sel := value } else v
  let v := if m4 then { v with queue_num := value } else v
  let v := if m5 then { v with queue_pfn := value } else v
  let v := if m6 then { v with queue_notify := value } else v
  if m7 then { v with status := value } else v

def Virtio.load (v : Virtio) (address size : Nat) : Except Err Nat :=
  if size = 32 then .ok (v.load32 address) else .error (.trap .LoadAccessFault)

def Virtio.store (v : Virtio) (address size value : Nat) : Except Err Virtio :=
  if size = 32 then .ok (v.store32 address value) else .error (.trap .StoreAMOAccessFault)

/-- `get_new_id`: non-wrapping increment, returns the new id. -/
def Virtio.get_new_id (v : Virtio) : Nat × Virtio :=
  (v.id + 1, { v with id := v.id + 1 })

def Virtio.desc_addr (v : Virtio) : Nat := v.queue_pfn * v.page_size

/-- `read_disk` (host buffer bounds of the disk image are not modelled; no
claim depends on them). -/
def Virtio.read_disk (v : Virtio) (address : Nat) : Nat := readu8 v.disk address

/-- `write_disk` (host buffer bounds of the disk image are not modelled). -/
def Virtio.write_disk (v : Virtio) (address value : Nat) : Virtio :=
  { v with disk := writeu8 v.disk address value }

/-! ## Bus (bus.ts)

A pure range dispatcher. Note the DRAM branch: `DRAM_BASE <= address` with
NO upper bound, so every address at or above `DRAM_BASE` reaches DRAM. -/

structure Bus where
  clint : Clint
  plic : Plic
  uart : Uart
  virtio : Virtio
  dram : Dram

def Bus.new (binary diskImage : Bytes) : Bus :=
  { clint := Clint.new, plic := Plic.new, uart := Uart.new,
    virtio := Virtio.new diskImage, dram := Dram.new binary }

def Bus.load (b : Bus) (address size : Nat) : Except Err Nat :=
  if CLINT_BASE ≤ address ∧ address < CLINT_BASE + CLINT_SIZE then b.clint.load address size
  else if PLIC_BASE ≤ address ∧ address < PLIC_BASE + PLIC_SIZE then b.plic.load address size
  else if UART_BASE ≤ address ∧ address < UART_BASE + UART_SIZE then b.uart.load address size
  else if VIRTIO_BASE ≤ address ∧ address < VIRTIO_BASE + VIRTIO_SIZE then b.virtio.load address size
  else if DRAM_BASE ≤ address then b.dram.load address size
  else .error (.trap .LoadAccessFault)

def Bus.store (b : Bus) (address size value : Nat) : Except Err Bus :=
  if CLINT_BASE ≤ address ∧ address < CLINT_BASE + CLINT_SIZE then
    (b.clint.store address size value).map fun c => { b with clint := c }
  else if PLIC_BASE ≤ address ∧ address < PLIC_BASE + PLIC_SIZE then
    (b.plic.store address size value).map fun p => { b with plic := p }
  else if UART_BASE ≤ address ∧ address < UART_BASE + UART_SIZE then
    (b.uart.store address size value).map fun u => { b with uart := u }
  else if VIRTIO_BASE ≤ address ∧ address < VIRTIO_BASE + VIRTIO_SIZE then
    (b.virtio.store address size value).map fun v => { b with virtio := v }
  else if DRAM_BASE ≤ address then
    (b.dram.store address size value).map fun d => { b with dram := d }
  else .error (.trap .StoreAMOAccessFault)

/-! ## CPU (src/unnamed/part_002) -/

def PAGE_SIZE : Nat := 4096

def MSTATUS : Nat := 0x300
def MEDELEG : Nat := 0x302
def MIDELEG : Nat := 0x303
def MIE : Nat := 0x304
def MTVEC : Nat := 0x305
def MEPC : Nat := 0x341
def MCAUSE : Nat := 0x342
def MTVAL : Nat := 0x343
def MIP : Nat := 0x344

def MIP_SSIP : Nat := 2
def MIP_MSIP : Nat := 8
def MIP_STIP : Nat := 32
def MIP_MTIP : Nat := 128
def MIP_SEIP : Nat := 512
def MIP_MEIP : Nat := 2048

def SSTATUS : Nat := 0x100
def SIE : Nat := 0x104
def STVEC : Nat := 0x105
def SEPC : Nat := 0x141
def SCAUSE : Nat := 0x142
def STVAL : Nat := 0x143
def SIP : Nat := 0x144
def SATP : Nat := 0x180

/-- The privilege mode enum (User = 0, Supervisor = 1, Machine = 3). -/
inductive Mode where
  | User
  | Supervisor
  | Machine
  deriving DecidableEq

/-- Numeric value of a mode, used by the `<=` comparison in takeTrapHelper. -/
def Mode.val : Mode → Nat
  | .User => 0
  | .Supervisor => 1
  | .Machine => 3

/-- Access type of a translation, selecting the page-fault variant. -/
inductive AccessType where
  | Instruction
  | Load
  | Store
  deriving DecidableEq

/-- The page fault matching an access type. -/
def AccessType.pageFault : AccessType → Exc
  | .Instruction => .InstructionPageFault
  | .Load => .LoadPageFault
  | .Store => .StoreAMOPageFault

/-- Hart state. `registers` and `csrs` are the byte contents of the
4*32- and 4*4096-byte Luau buffers of the source; both are only accessed
at offsets that are in bounds of those allocations. -/
structure Cpu where
  registers : Bytes
  programCounter : Nat
  mode : Mode
  bus : Bus
  csrs : Bytes
  enablePaging : Bool
  pageTable : Nat

/-- The Cpu constructor: a fresh zeroed register file whose byte offset
4*3 (register x3) receives DRAM_BASE + DRAM_SIZE, pc = DRAM_BASE,
Machine mode, zeroed CSRs, paging off. -/
def Cpu.new (binary diskImage : Bytes) : Cpu :=
  { registers := writeu32 zeroBytes (4 * 3) (DRAM_BASE + DRAM_SIZE),
    programCounter := DRAM_BASE,
    mode := .Machine,
    bus := Bus.new binary diskImage,
    csrs := zeroBytes,
    enablePaging := false,
    pageTable := 0 }

/-- `Cpu.load_csr`. NOTE: the default branch indexes the CSR byte buffer
with the raw CSR address (`buffer.readu32(this.csrs, address)`) — there
is no *4 scaling, so four-byte reads of adjacent CSR addresses overlap. -/
def Cpu.load_csr (c : Cpu) (address : Nat) : Nat :=
  if address = SIE then band (readu32 c.csrs MIE) (readu32 c.csrs MIDELEG)
  else readu32 c.csrs address

/-- `Cpu.store_csr`; same raw byte-offset indexing as `load_csr`. A store
to SIE rewrites only the mideleg-delegated bits of MIE. -/
def Cpu.store_csr (c : Cpu) (address value : Nat) : Cpu :=
  if address = SIE then
    let merged := bor (band (readu32 c.csrs MIE) (bnot (readu32 c.csrs MIDELEG)))
      (band value (readu32 c.csrs MIDELEG))
    { c with csrs := writeu32 c.csrs MIE merged }
  else { c with csrs := writeu32 c.csrs address value }

/-- `Cpu.update_paging`: refresh of the paging cache, a no-op unless the
argument is SATP. `1 << 44` is 0 under Luau bit32 (displacement over 31),
so the PPN mask `(1 << 44) - 1` wraps to -1 and `band` with it keeps the
whole 32-bit satp value; `satp >> 60` is an arithmetic shift by 60, which
yields 0 or 0xFFFFFFFF and therefore never equals 8. -/
def Cpu.update_paging (c : Cpu) (csrAddress : Nat) : Cpu :=
  if csrAddress ≠ SATP then c
  else
    let mask : Nat := ((((lshift 1 44 : Nat) : Int) - 1) % (W32 : Int)).toNat
    let pageTable := band (c.load_csr SATP) mask * PAGE_SIZE
    let mode := arshift (c.load_csr SATP) 60
    { c with pageTable := pageTable, enablePaging := mode = 8 }

/-- The `vpn` array of `Cpu.translate`. -/
def translateVpn (address : Nat) : Nat → Nat
  | 0 => band (arshift address 12) 0x1ff
  | 1 => band (arshift address 21) 0x1ff
  | _ => band (arshift address 30) 0x1ff

/-- The page-table walk loop of `Cpu.translate`, recursing on the level `i`
(which starts at 2). On a leaf it returns the PTE together with the level
at which it was found; page faults match the original access type. -/
def Cpu.translateLoop (c : Cpu) (accessType : AccessType) (address : Nat) :
    Nat → Nat → Except Err (Nat × Nat)
  | a, i => do
    let pte ← c.bus.load (a + translateVpn address i * 8) 64
    let v := band pte 1
    let r := band (arshift pte 1) 1
    let w := band (arshift pte 2) 1
    let x := band (arshift pte 3) 1
    if v = 0 ∨ (r = 0 ∧ w = 1) then .error (.trap accessType.pageFault)
    else if r = 1 ∨ x = 1 then .ok (pte, i)
    else
      match i with
      | 0 => .error (.trap accessType.pageFault)
      | i' + 1 =>
        let ppn := band (arshift pte 10) 0xfffffffffff
        c.translateLoop accessType address (ppn * PAGE_SIZE) i'

/-- `Cpu.translate`: identity when paging is disabled, else an Sv39-shaped
walk from the cached page-table root. -/
def Cpu.translate (c : Cpu) (address : Nat) (accessType : AccessType) : Except Err Nat :=
  if !c.enablePaging then .ok address
  else do
    let (pte, i) ← c.translateLoop accessType address c.pageTable 2
    let ppn1 := band (arshift pte 19) 0x1ff
    let ppn2 := band (arshift pte 28) 0x3ffffff
    let offset := band address 0xfff
    match i with
    | 0 => .ok (bor (lshift (band (arshift pte 10) 0xfffffffffff) 12) offset)
    | 1 => .ok (bor (bor (bor (lshift ppn2 30) (lshift ppn1 21))
        (lshift (translateVpn address 0) 12)) offset)
    | 2 => .ok (bor (bor (bor (lshift ppn2 30) (lshift (translateVpn address 1) 21))
        (lshift (translateVpn address 0) 12)) offset)
    | _ => .error (.trap accessType.pageFault)

/-- `Cpu.load`: translate as a Load access, then go through the bus. -/
def Cpu.load (c : Cpu) (address size : Nat) : Except Err Nat := do
  let p_addr ← c.translate address .Load
  c.bus.load p_addr size

/-- `Cpu.store`: translate as a Store access, then go through the bus. -/
def Cpu.store (c : Cpu) (address size value : Nat) : Except Err Cpu := do
  let p_addr ← c.translate address .Store
  let bus ← c.bus.store p_addr size value
  .ok { c with bus := bus }

/-- `Cpu.fetch`: translation errors propagate unchanged (the translate call
is OUTSIDE the try), while any error of the 32-bit bus load — access fault
or host buffer error alike — is caught and rethrown as
`InstructionAccessFault`. -/
def Cpu.fetch (c : Cpu) : Except Err Nat := do
  let p_pc ← c.translate c.programCounter .Instruction
  match c.bus.load p_pc 32 with
  | .ok v => .ok v
  | .error _ => .error (.trap .InstructionAccessFault)

/-- The ascending DMA byte loop of `diskAccess`, guest memory to disk,
recursing on the number of remaining iterations. -/
def diskWriteLoop (addr1 blk_sector : Nat) : Bus → Nat → Nat → Except Err Bus
  | bus, _, 0 => .ok bus
  | bus, i, k + 1 => do
    let data ← bus.load (addr1 + i) 8
    let virtio := bus.virtio.write_disk (blk_sector * 512 + i) data
    diskWriteLoop addr1 blk_sector { bus with virtio := virtio } (i + 1) k

/-- The ascending DMA byte loop of `diskAccess`, disk to guest memory. -/
def diskReadLoop (addr1 blk_sector : Nat) : Bus → Nat → Nat → Except Err Bus
  | bus, _, 0 => .ok bus
  | bus, i, k + 1 => do
    let data := bus.virtio.read_disk (blk_sector * 512 + i)
    let bus ← bus.store (addr1 + i) 8 data
    diskReadLoop addr1 blk_sector bus (i + 1) k

/-- `Cpu.diskAccess`: the virtio-blk legacy DMA transaction run on a
consumed queue notification. -/
def Cpu.diskAccess (c : Cpu) : Except Err Cpu := do
  let desc_addr := c.bus.virtio.desc_addr
  let avail_addr := c.bus.virtio.desc_addr + 0x40
  let used_addr := c.bus.virtio.desc_addr + 4096
  let offset ← c.bus.load (avail_addr + 1) 16
  let index ← c.bus.load (avail_addr + offset % DESC_NUM + 2) 16
  let desc_addr0 := desc_addr + VRING_DESC_SIZE * index
  let addr0 ← c.bus.load desc_addr0 64
  let next0 ← c.bus.load (desc_addr0 + 14) 16
  let desc_addr1 := desc_addr + VRING_DESC_SIZE * next0
  let addr1 ← c.bus.load desc_addr1 64
  let len1 ← c.bus.load (desc_addr1 + 8) 32
  let flags1 ← c.bus.load (desc_addr1 + 12) 16
  let blk_sector ← c.bus.load (addr0 + 8) 64
  let bus ←
    if band flags1 2 = 0 then diskWriteLoop addr1 blk_sector c.bus 0 len1
    else diskReadLoop addr1 blk_sector c.bus 0 len1
  let (new_id, virtio) := bus.virtio.get_new_id
  let bus := { bus with virtio := virtio }
  let bus ← bus.store (used_addr + 2) 16 (new_id % 8)
  .ok { c with bus := bus }

/-- `Cpu.checkPendingInterrupt`. The mode `switch` has no `break` after the
Machine case, so when MIE is set the control FALLS THROUGH into the
Supervisor case and additionally requires `sstatus.SIE`; only then are the
devices polled and the `mie & mip` priority chain evaluated. -/
def Cpu.checkPendingInterrupt (c : Cpu) : Except Err (Option Intr × Cpu) :=
  let machineBlocked := band (arshift (c.load_csr MSTATUS) 3) 1 == 0
  let supervisorBlocked := band (arshift (c.load_csr SSTATUS) 1) 1 == 0
  let gated : Bool :=
    match c.mode with
    | .Machine => machineBlocked || supervisorBlocked
    | .Supervisor => supervisorBlocked
    | .User => false
  if gated then .ok (none, c)
  else do
    let (uartIrq, uart) := c.bus.uart.isInterrupting
    let c := { c with bus := { c.bus with uart := uart } }
    let (irq, c) ← do
      if uartIrq then pure (UART_IRQ, c)
      else
        let (virtIrq, virtio) := c.bus.virtio.isInterrupting
        let c := { c with bus := { c.bus with virtio := virtio } }
        if virtIrq then do
          let c ← c.diskAccess
          pure (VIRTIO_IRQ, c)
        else pure (0, c)
    let c ← do
      if irq ≠ 0 then do
        let bus ← c.bus.store PLIC_SCLAIM 32 irq
        let c := { c with bus := bus }
        pure (c.store_csr MIP (bor (c.load_csr MIP) MIP_SEIP))
      else pure c
    let pending := band (c.load_csr MIE) (c.load_csr MIP)
    if band pending MIP_MEIP ≠ 0 then
      .ok (some .MachineExternalInterrupt, c.store_csr MIP (band (c.load_csr MIP) (bnot MIP_MEIP)))
    else if band pending MIP_MSIP ≠ 0 then
      .ok (some .MachineSoftwareInterrupt, c.store_csr MIP (band (c.load_csr MIP) (bnot MIP_MSIP)))
    else if band pending MIP_MTIP ≠ 0 then
      .ok (some .MachineTimerInterrupt, c.store_csr MIP (band (c.load_csr MIP) (bnot MIP_MTIP)))
    else if band pending MIP_SEIP ≠ 0 then
      .ok (some .SupervisorExternalInterrupt, c.store_csr MIP (band (c.load_csr MIP) (bnot MIP_SEIP)))
    else if band pending MIP_SSIP ≠ 0 then
      .ok (some .SupervisorSoftwareInterrupt, c.store_csr MIP (band (c.load_csr MIP) (bnot MIP_SSIP)))
    else if band pending MIP_STIP ≠ 0 then
      .ok (some .SupervisorTimerInterrupt, c.store_csr MIP (band (c.load_csr MIP) (bnot MIP_STIP)))
    else .ok (none, c)

/-- `Cpu.takeTrapHelper`. Note two faithful oddities: `(1 << 63)` is 0
under Luau bit32, so the interrupt bit is never actually set in `cause`;
and the delegation test reads MEDELEG for interrupts as well as for
exceptions (MIDELEG is never consulted). The program counter has always
been advanced past DRAM_BASE when a trap is taken, so the `pc - 4`
subtraction is exact on Nat. -/
def Cpu.takeTrapHelper (c : Cpu) (cause0 : Nat) (isInterrupt : Bool) : Cpu :=
  let exceptionProgramCounter := c.programCounter - 4
  let previousMode := c.mode
  let cause := if isInterrupt then bor (lshift 1 63) cause0 else cause0
  if previousMode.val ≤ Mode.Supervisor.val ∧ band (arshift (c.load_csr MEDELEG) cause) 1 ≠ 0 then
    let c := { c with mode := .Supervisor }
    let c :=
      if isInterrupt then
        let vector := if band (c.load_csr STVEC) 1 = 1 then 4 * cause else 0
        { c with programCounter := band (c.load_csr STVEC) (bnot 1) + vector }
      else { c with programCounter := band (c.load_csr STVEC) (bnot 1) }
    let c := c.store_csr SEPC (band exceptionProgramCounter (bnot 1))
    let c := c.store_csr SCAUSE cause
    let c := c.store_csr STVAL 0
    let new_status :=
      if band (arshift (c.load_csr SSTATUS) 1) 1 = 1 then bor (c.load_csr SSTATUS) (lshift 1 5)
      else band (c.load_csr SSTATUS) (bnot (lshift 1 5))
    let c := c.store_csr SSTATUS new_status
    let c := c.store_csr SSTATUS (band (c.load_csr SSTATUS) (bnot (lshift 1 1)))
    match previousMode with
    | .User => c.store_csr SSTATUS (band (c.load_csr SSTATUS) (bnot (lshift 1 8)))
    | _ => c.store_csr SSTATUS (bor (c.load_csr SSTATUS) (lshift 1 8))
  else
    let c := { c with mode := .Machine }
    let c :=
      if isInterrupt then
        let vector := if band (c.load_csr MTVEC) 1 = 1 then 4 * cause else 0
        { c with programCounter := band (c.load_csr MTVEC) (bnot 1) + vector }
      else { c with programCounter := band (c.load_csr MTVEC) (bnot 1) }
    let c := c.store_csr MEPC (band exceptionProgramCounter (bnot 1))
    let c := c.store_csr MCAUSE cause
    let c := c.store_csr MTVAL 0
    let new_status :=
      if band (arshift (c.load_csr MSTATUS) 3) 1 = 1 then bor (c.load_csr MSTATUS) (lshift 1 7)
      else band (c.load_csr MSTATUS) (bnot (lshift 1 7))
    let c := c.store_csr MSTATUS new_status
    let c := c.store_csr MSTATUS (band (c.load_csr MSTATUS) (bnot (lshift 1 3)))
    c.store_csr MSTATUS (band (c.load_csr MSTATUS) (bnot (lshift 3 11)))

/-- A `Trap` object: an `Exception` or an `Interrupt` instance. -/
inductive TrapV where
  | exc (e : Exc)
  | intr (i : Intr)

def TrapV.exceptionCode : TrapV → Nat
  | .exc e => e.exceptionCode
  | .intr i => i.exceptionCode

def TrapV.isInterrupt : TrapV → Bool
  | .exc _ => false
  | .intr _ => true

/-- `Cpu.takeTrap` forwards the trap object's code and interrupt flag. -/
def Cpu.takeTrap (c : Cpu) (t : TrapV) : Cpu :=
  c.takeTrapHelper t.exceptionCode t.isInterrupt

/-- `Cpu.execute` is an unimplemented TODO in the source: it performs no
state change and never throws. -/
def Cpu.execute (c : Cpu) (_instruction : Nat) : Except Err Cpu := .ok c

/-- `Cpu.step`. The fetch in step 1 is OUTSIDE any try/catch (the source
comment reads `TODO: handle exceptions`), so fetch-time traps escape to
the caller; only the execute phase is wrapped, returning `false` on a
fatal trap. Errors of the interrupt phase also escape. -/
def Cpu.step (c : Cpu) : Except Err (Bool × Cpu) := do
  let instruction ← c.fetch
  let c := { c with programCounter := c.programCounter + 4 }
  let (earlyReturn, c) ←
    match c.execute instruction with
    | .ok c => pure (false, c)
    | .error (.trap e) => pure (e.isFatal, c.takeTrap (.exc e))
    | .error (.host m) => .error (.host m)
  if earlyReturn then pure (false, c)
  else do
    let (interrupt, c) ← c.checkPendingInterrupt
    match interrupt with
    | some i => pure (true, c.takeTrap (.intr i))
    | none => pure (true, c)

/-! ## Concrete evaluation states -/

/-- A hart freshly constructed from all-zero kernel and disk images. -/
def cpu0 : Cpu := Cpu.new zeroBytes zeroBytes

/-- A hart in Supervisor mode whose mideleg CSR (byte offset 0x303) holds 2,
i.e. delegation bit 1 (SupervisorSoftwareInterrupt) is set, while every bit
of medeleg below 8 is clear. -/
def cpu4 : Cpu :=
  { Cpu.new zeroBytes zeroBytes with
    mode := .Supervisor, csrs := writeu32 zeroBytes MIDELEG 2 }

/-- A hart in Machine mode with mstatus.MIE = 1, sstatus.SIE = 0 and a
machine-timer interrupt both enabled and pending (mie = mip = MIP_MTIP). -/
def cpu5 : Cpu :=
  { Cpu.new zeroBytes zeroBytes with
    csrs := writeu8 (writeu8 (writeu8 zeroBytes MSTATUS 8) MIE 128) MIP 128 }

/-- A hart whose program counter has walked off the end of DRAM
(reached after 0x2000000 steps from reset, as nothing else bounds pc). -/
def cpu6 : Cpu :=
  { Cpu.new zeroBytes zeroBytes with programCounter := DRAM_BASE + DRAM_SIZE }

/-! ## Claim theorems -/

/-- Claim C1: for every value v, load_csr(SIE) returns
load_csr(MIE) & load_csr(MIDELEG), and after store_csr(SIE, v) the mie CSR
equals (old_mie & NOT mideleg) | (v & mideleg) where old_mie and mideleg
are the values read immediately before the write; so the sie CSR observed
through a read always equals mie & mideleg. -/
theorem claim1_sie_read_write_mediated (c : Cpu) (v : Nat) :
    c.load_csr SIE = band (c.load_csr MIE) (c.load_csr MIDELEG) ∧
    (c.store_csr SIE v).load_csr MIE =
      bor (band (c.load_csr MIE) (bnot (c.load_csr MIDELEG))) (band v (c.load_csr MIDELEG)) := by
  constructor
  · simp [Cpu.load_csr, SIE, MIE, MIDELEG]
  · have h1 : (MIE : Nat) ≠ SIE := by decide
    have h3 : (MIDELEG : Nat) ≠ SIE := by decide
    simp [Cpu.load_csr, Cpu.store_csr, h1, h3]
    rw [readu32_writeu32]
    exact Nat.mod_eq_of_lt (bor_lt _ _)

/-- Claim C2 (refuted): the CSR file does NOT consist of disjoint 32-bit
slots: `store_csr`/`load_csr` use the raw CSR address as a byte offset into
the 4*4096-byte buffer, so the four bytes of adjacent CSR addresses
overlap. Writing mcause (0x342) changes mtval (0x343) from 0 to 0xFFFFFF. -/
theorem claim2_csr_slots_overlap :
    cpu0.load_csr MTVAL = 0 ∧
    (cpu0.store_csr MCAUSE 0xFFFFFFFF).load_csr MTVAL = 0xFFFFFF := by
  exact ⟨rfl, rfl⟩

/-- Claim C3, counterexample: a write of 1 to satp (whose PPN field is 1,
so the claim demands pageTable = 1 * PAGE_SIZE = 4096 afterwards) leaves
the cached page-table root at 0 — `store_csr` never refreshes the paging
cache. -/
theorem claim3_counterexample_store_satp_no_refresh :
    (cpu0.store_csr SATP 1).pageTable ≠ 1 * PAGE_SIZE := by
  decide

/-- Claim C3, amended: `store_csr` (to satp or any other CSR) writes only
the CSR array and leaves the cached paging state (enablePaging, pageTable)
unchanged; the refresh happens only in the separate `update_paging` method,
which no current caller invokes after a satp write (execute() is
unimplemented). -/
theorem claim3_amended_store_csr_preserves_paging_cache (c : Cpu) (address value : Nat) :
    (c.store_csr address value).enablePaging = c.enablePaging ∧
    (c.store_csr address value).pageTable = c.pageTable := by
  unfold Cpu.store_csr
  split <;> exact ⟨rfl, rfl⟩

/-- Claim C4 (refuted): the delegation test of takeTrapHelper consults
MEDELEG even for interrupts. From Supervisor mode, with mideleg bit 1 set
(SupervisorSoftwareInterrupt delegated) and medeleg bit 1 clear, the claim
requires S-mode handling, but takeTrapHelper(1, true) lands in M-mode. -/
theorem claim4_interrupt_delegation_uses_medeleg :
    cpu4.mode = Mode.Supervisor ∧
    band (arshift (cpu4.load_csr MIDELEG) 1) 1 = 1 ∧
    band (arshift (cpu4.load_csr MEDELEG) 1) 1 = 0 ∧
    (cpu4.takeTrapHelper Intr.SupervisorSoftwareInterrupt.exceptionCode true).mode = Mode.Machine := by
  refine ⟨rfl, by decide, by decide, by decide⟩

/-- Claim C5 (refuted): the mode switch of checkPendingInterrupt has no
break after the Machine case, so Machine mode with mstatus.MIE = 1 still
falls through into the sstatus.SIE test: with SIE = 0 no interrupt is
returned even though a machine-timer interrupt is enabled and pending
(mie & mip & MTIP is non-zero), contradicting `the gate passes regardless
of sstatus.SIE`. -/
theorem claim5_machine_mode_gate_falls_through_to_sie :
    cpu5.mode = Mode.Machine ∧
    band (arshift (cpu5.load_csr MSTATUS) 3) 1 = 1 ∧
    band (arshift (cpu5.load_csr SSTATUS) 1) 1 = 0 ∧
    band (band (cpu5.load_csr MIE) (cpu5.load_csr MIP)) MIP_MTIP ≠ 0 ∧
    cpu5.checkPendingInterrupt = .ok (none, cpu5) := by
  refine ⟨rfl, by decide, by decide, by decide, rfl⟩

/-- Claim C6 (refuted): the fetch of step 1 sits OUTSIDE the try/catch of
step(), so a fetch-time InstructionAccessFault — a fatal cause for which
the claim requires step() to return the halt signal false — escapes step()
to its caller instead of being passed to the trap unit. -/
theorem claim6_fetch_trap_escapes_step :
    cpu6.step = .error (.trap .InstructionAccessFault) := by
  rfl

/-- Claim C7, counterexample: the address DRAM_BASE + DRAM_SIZE =
0x8800_0000 lies in none of the five declared regions, yet Bus.load routes
it to DRAM (the DRAM branch has no upper bound), where it aborts with a
raw buffer out-of-bounds error — NOT the LoadAccessFault the claim
requires; likewise Bus.store does not raise StoreAMOAccessFault there. -/
theorem claim7_counterexample_high_address_routed_to_dram :
    cpu0.bus.load (DRAM_BASE + DRAM_SIZE) 8 = .error (.host bufferOOB) ∧
    cpu0.bus.store (DRAM_BASE + DRAM_SIZE) 8 1 = .error (.host bufferOOB) ∧
    Err.host bufferOOB ≠ Err.trap .LoadAccessFault ∧
    Err.host bufferOOB ≠ Err.trap .StoreAMOAccessFault := by
  refine ⟨rfl, rfl, by simp, by simp⟩

/-- Claim C7, amended: for every address below DRAM_BASE that lies in none
of the four device regions, Bus.load raises LoadAccessFault and Bus.store
raises StoreAMOAccessFault; but the DRAM branch has no upper bound, so
every address at or above DRAM_BASE — including all of
0x8800_0000 and beyond — is routed to DRAM, where an access past the end
of the backing buffer fails as a host buffer error rather than an access
fault. -/
theorem claim7_amended_bus_routing (b : Bus) (a size value : Nat)
    (h1 : ¬(CLINT_BASE ≤ a ∧ a < CLINT_BASE + CLINT_SIZE))
    (h2 : ¬(PLIC_BASE ≤ a ∧ a < PLIC_BASE + PLIC_SIZE))
    (h3 : ¬(UART_BASE ≤ a ∧ a < UART_BASE + UART_SIZE))
    (h4 : ¬(VIRTIO_BASE ≤ a ∧ a < VIRTIO_BASE + VIRTIO_SIZE)) :
    (a < DRAM_BASE →
      b.load a size = .error (.trap .LoadAccessFault) ∧
      b.store a size value = .error (.trap .StoreAMOAccessFault)) ∧
    (DRAM_BASE ≤ a →
      b.load a size = b.dram.load a size ∧
      b.store a size value = (b.dram.store a size value).map fun d => { b with dram := d }) := by
  constructor
  · intro h5
    have h5n : ¬(DRAM_BASE ≤ a) := Nat.not_le.mpr h5
    constructor
    · simp only [Bus.load, if_neg h1, if_neg h2, if_neg h3, if_neg h4, if_neg h5n]
    · simp only [Bus.store, if_neg h1, if_neg h2, if_neg h3, if_neg h4, if_neg h5n]
  · intro h6
    constructor
    · simp only [Bus.load, if_neg h1, if_neg h2, if_neg h3, if_neg h4, if_pos h6]
    · simp only [Bus.store, if_neg h1, if_neg h2, if_neg h3, if_neg h4, if_pos h6]

/-- Witness for the amended C7, at the unmapped gap address 0x1000_0500
(between the UART and VIRTIO regions) and at 0x8800_0000 (past the
declared end of DRAM). -/
theorem claim7_amended_bus_routing_witness :
    (cpu0.bus.load 0x10000500 32 = .error (.trap .LoadAccessFault) ∧
     cpu0.bus.store 0x10000500 32 1 = .error (.trap .StoreAMOAccessFault)) ∧
    (cpu0.bus.load 0x88000000 8 = cpu0.bus.dram.load 0x88000000 8 ∧
     cpu0.bus.store 0x88000000 8 1 =
       (cpu0.bus.dram.store 0x88000000 8 1).map fun d => { cpu0.bus with dram := d }) :=
  ⟨(claim7_amended_bus_routing cpu0.bus 0x10000500 32 1 (by decide) (by decide) (by decide)
      (by decide)).1 (by decide),
   (claim7_amended_bus_routing cpu0.bus 0x88000000 8 1 (by decide) (by decide) (by decide)
      (by decide)).2 (by decide)⟩

/-- The DRAM module constructed from an all-zero kernel binary. -/
def dram0 : Dram := Dram.new zeroBytes

/-- Claim C8 (refuted): Dram.store never succeeds: its switch has no break
statements, so the aligned in-range store of 0xDEADBEEF at 0x8000_1000 with
size 32 falls through into the 64-bit stub, which throws — the
store/load round trip of the claim cannot even complete its first half. -/
theorem claim8_dram_store_falls_through_and_throws :
    dram0.store 0x80001000 32 0xDEADBEEF = .error (.host dram64Msg) ∧
    dram0.store 0x80001000 8 0xEF = .error (.host dram64Msg) ∧
    dram0.store 0x80001000 16 0xBEEF = .error (.host dram64Msg) := by
  exact ⟨rfl, rfl, rfl⟩

/-- Claim C9 (refuted): the constructor writes DRAM_BASE + DRAM_SIZE at
register byte offset 4 * 3 — that is x3, not x2 (sp): after construction
x2 is 0 and x3 holds 0x8800_0000 (pc and mode are as claimed). -/
theorem claim9_constructor_initializes_x3_not_x2 :
    cpu0.programCounter = DRAM_BASE ∧
    cpu0.mode = Mode.Machine ∧
    readu32 cpu0.registers (4 * 2) = 0 ∧
    readu32 cpu0.registers (4 * 3) = DRAM_BASE + DRAM_SIZE := by
  refine ⟨rfl, rfl, by decide, by decide⟩

/-- Claim C10: virtio notifications are consumed single-shot: if
queue_notify differs from the sentinel 9999, isInterrupting returns true
and resets it to 9999; if it equals 9999, it returns false and leaves the
device unchanged; two consecutive calls never both return true (the second
always returns false); and storing 9999 to the queue-notify register never
produces a notification. -/
theorem claim10_virtio_notify_single_shot (v : Virtio) :
    (v.isInterrupting =
      if v.queue_notify = 9999 then (false, v) else (true, { v with queue_notify := 9999 })) ∧
    (v.isInterrupting.2.isInterrupting.1 = false) ∧
    (∀ w : Virtio, ((w.store32 VIRTIO_QUEUE_NOTIFY 9999).isInterrupting).1 = false) := by
  refine ⟨?_, ?_, ?_⟩
  · by_cases h : v.queue_notify = 9999 <;> simp [Virtio.isInterrupting, h]
  · by_cases h : v.queue_notify = 9999 <;> simp [Virtio.isInterrupting, h]
  · intro w
    simp [Virtio.store32, Virtio.isInterrupting, VIRTIO_QUEUE_NOTIFY, VIRTIO_DEVICE_FEATURES,
      VIRTIO_GUEST_PAGE_SIZE, VIRTIO_QUEUE_SEL, VIRTIO_QUEUE_NUM, VIRTIO_QUEUE_PFN,
      VIRTIO_STATUS, VIRTIO_BASE]

end RV32
